import Mathlib

/-!
# Verification of the artist aggregation / revenue-estimation pipeline

Shallow embedding of `src/files/artist_analyzer.py` (class `ArtistAnalyzer`)
together with the serialization behaviour relevant to `src/fix_json.py`.

Conventions of the embedding:
* pandas missing values (`NaN` cells, for which `pd.isna` is true) are
  modelled by `Option.none`;
* Python floats are modelled by exact rationals `ℚ`;
* popularity values are integers (`ℤ`), matching the data model; `int(x)`
  truncation in the source is therefore the identity;
* a Python `KeyError` (dictionary lookup miss) is modelled by an
  `Option`-valued lookup, and a computation that may raise propagates the
  `none`;
* `pd.to_datetime` parsing is external ingestion: a `Song` carries its
  release date already parsed as an epoch-day number `Option ℤ` (none when
  the source cell is missing or unparseable, as `parse_release_date`
  returns `None` in both cases).
-/

/-- The seven audio feature names tracked by `analyze_artists`
(`energy, danceability, positiveness, speechiness, liveness,
acousticness, instrumentalness`). -/
inductive AudioKey where
  | energy | danceability | positiveness | speechiness
  | liveness | acousticness | instrumentalness
deriving DecidableEq, Repr

/-- Song tier as returned by `ArtistAnalyzer.classify_song`: the four
configured tiers plus the `'unknown'` fallback string. -/
inductive Tier where
  | hit | good | mid | bust | unknown
deriving DecidableEq, Repr

/-- One input row of the CSV, with the columns `analyze_artists` reads:
`song` (title), `Artist(s)` (raw comma-delimited credit string, `none` for a
missing cell), `Popularity`, `Genre`, `Explicit` (raw cell value, a string
such as `"Yes"`/`"No"` in the dataset), `Release Date` (already parsed to
epoch days, see module docstring) and the seven audio-feature columns. -/
structure Song where
  song : String
  artists : Option String
  popularity : Option ℤ
  genre : Option String
  explicitVal : String
  release_date : Option ℤ
  audio : AudioKey → Option ℚ

/-- `ArtistAnalyzer._create_revenue_benchmarks`: the 11-point dictionary
from popularity decile to estimated dollar revenue.  Lookup of an absent
key — a Python `KeyError` — is `none`. -/
def revenue_benchmarks (k : ℤ) : Option ℚ :=
  if k = 0 then some 500
  else if k = 10 then some 5000
  else if k = 20 then some 12000
  else if k = 30 then some 30000
  else if k = 40 then some 75000
  else if k = 50 then some 150000
  else if k = 60 then some 350000
  else if k = 70 then some 800000
  else if k = 80 then some 2000000
  else if k = 90 then some 15000000
  else if k = 100 then some 30000000
  else none

/-- `ArtistAnalyzer.estimate_song_revenue`.  Missing popularity returns 0;
otherwise `lower_bound = (popularity // 10) * 10` (Python floor division is
`Int.fdiv`), `upper_bound = min (lower_bound + 10) 100`; when the bounds
coincide the benchmark is returned directly, else linear interpolation
between the two benchmark values.  A benchmark lookup miss (`KeyError`)
yields `none`. -/
def estimate_song_revenue (popularity : Option ℤ) : Option ℚ :=
  match popularity with
  | none => some 0
  | some p =>
    let lower_bound : ℤ := (Int.fdiv p 10) * 10
    let upper_bound : ℤ := min (lower_bound + 10) 100
    if lower_bound = upper_bound then
      revenue_benchmarks lower_bound
    else
      match revenue_benchmarks lower_bound, revenue_benchmarks upper_bound with
      | some lower_revenue, some upper_revenue =>
        some (lower_revenue + (upper_revenue - lower_revenue) * ((p - lower_bound : ℤ) : ℚ) / 10)
      | _, _ => none

/-- `ArtistAnalyzer.classify_song`: missing popularity is `'unknown'`;
otherwise the four `tier_definitions` entries are checked in the
dictionary's insertion order `hit (80,100)`, `good (65,79)`, `mid (35,64)`,
`bust (0,34)` and the first inclusive range containing the value wins;
no match falls through to `'unknown'`. -/
def classify_song (popularity : Option ℤ) : Tier :=
  match popularity with
  | none => Tier.unknown
  | some p =>
    if 80 ≤ p ∧ p ≤ 100 then Tier.hit
    else if 65 ≤ p ∧ p ≤ 79 then Tier.good
    else if 35 ≤ p ∧ p ≤ 64 then Tier.mid
    else if 0 ≤ p ∧ p ≤ 34 then Tier.bust
    else Tier.unknown

/-- Python `str.split(',')` on the character list of a string: cut at every
comma, keeping empty pieces (a string with k commas yields k+1 pieces). -/
def splitCommaChars : List Char → List (List Char)
  | [] => [[]]
  | c :: rest =>
    if c = ',' then [] :: splitCommaChars rest
    else
      match splitCommaChars rest with
      | [] => [[c]]
      | h :: t => (c :: h) :: t

/-- Python `str.strip()`: drop leading and trailing whitespace characters. -/
def pyStrip (s : List Char) : List Char :=
  ((s.dropWhile Char.isWhitespace).reverse.dropWhile Char.isWhitespace).reverse

/-- `ArtistAnalyzer.parse_artists`: a missing cell gives no artists;
otherwise the string is split on commas (`s.split(',')`), each part
stripped of surrounding whitespace (`a.strip()`), and empty parts
dropped. -/
def parse_artists (artist_string : Option String) : List String :=
  match artist_string with
  | none => []
  | some s =>
    (((splitCommaChars s.data).map (fun a => String.mk (pyStrip a)))).filter
      (fun a => a ≠ "")

/-- The per-song detail record appended to `data['songs']` inside
`analyze_artists` (title, popularity, tier, revenue, release date); the
popularity is stored exactly as it came from the row, so a missing
popularity stays missing in the retained record. -/
structure SongDetail where
  title : String
  popularity : Option ℤ
  tier : Tier
  revenue : ℚ
  release_date : Option ℤ
deriving DecidableEq

/-- The mutable per-artist accumulator created by the `defaultdict` in
`analyze_artists` (counts all zero, lists empty, genre counter empty). -/
structure ArtistAcc where
  songs : List SongDetail
  total_songs : ℕ
  hit_songs : ℕ
  good_songs : ℕ
  mid_songs : ℕ
  bust_songs : ℕ
  total_revenue : ℚ
  genres : String → ℕ
  explicit_count : ℕ
  release_dates : List ℤ
  audio_features : AudioKey → List ℚ

/-- The fresh accumulator the `defaultdict` default factory produces. -/
def initAcc : ArtistAcc where
  songs := []
  total_songs := 0
  hit_songs := 0
  good_songs := 0
  mid_songs := 0
  bust_songs := 0
  total_revenue := 0
  genres := fun _ => 0
  explicit_count := 0
  release_dates := []
  audio_features := fun _ => []

/-- The body of the `for artist in artists` loop in `analyze_artists`:
one credited artist's accumulator absorbs one song, with `tier` and
`revenue` passed in (they were computed once, before the loop). -/
def updateArtistAcc (data : ArtistAcc) (row : Song) (tier : Tier) (revenue : ℚ) :
    ArtistAcc where
  songs := data.songs ++
    [{ title := row.song, popularity := row.popularity, tier := tier,
       revenue := revenue, release_date := row.release_date }]
  total_songs := data.total_songs + 1
  hit_songs := data.hit_songs + (if tier = Tier.hit then 1 else 0)
  good_songs := data.good_songs + (if tier = Tier.good then 1 else 0)
  mid_songs := data.mid_songs + (if tier = Tier.mid then 1 else 0)
  bust_songs := data.bust_songs + (if tier = Tier.bust then 1 else 0)
  total_revenue := data.total_revenue + revenue
  genres :=
    match row.genre with
    | none => data.genres
    | some g => Function.update data.genres g (data.genres g + 1)
  explicit_count := data.explicit_count + (if row.explicitVal = "Yes" then 1 else 0)
  release_dates :=
    match row.release_date with
    | none => data.release_dates
    | some d => data.release_dates ++ [d]
  audio_features := fun k =>
    match row.audio k with
    | none => data.audio_features k
    | some v => data.audio_features k ++ [v]

/-- One iteration of the `for idx, row in self.df.iterrows()` loop:
parse the credited artists, compute `tier` and `revenue` once for the
song, then update every credited artist's accumulator in credit order.
A `KeyError` raised by `estimate_song_revenue` (out-of-table popularity)
aborts the run, modelled by `none`. -/
def processSong (state : String → ArtistAcc) (row : Song) :
    Option (String → ArtistAcc) :=
  let artists := parse_artists row.artists
  let tier := classify_song row.popularity
  match estimate_song_revenue row.popularity with
  | none => none
  | some revenue =>
    some (artists.foldl
      (fun st a => Function.update st a (updateArtistAcc (st a) row tier revenue)) state)

/-- The accumulation phase of `ArtistAnalyzer.analyze_artists`: fold all
rows over the `defaultdict` state (every artist name maps to `initAcc`
until first touched), propagating a `KeyError` as `none`. -/
def analyze_accumulate (songs : List Song) : Option (String → ArtistAcc) :=
  songs.foldlM processSong (fun _ => initAcc)

/-- Python `round(x, 2)` on an exact rational: round-half-to-even at the
second decimal. -/
def pyRound (q : ℚ) : ℤ :=
  if q - ⌊q⌋ < 1/2 then ⌊q⌋
  else if 1/2 < q - ⌊q⌋ then ⌊q⌋ + 1
  else if ⌊q⌋ % 2 = 0 then ⌊q⌋ else ⌊q⌋ + 1

/-- `round(·, 2)` as used throughout `analyze_artists` and
`get_summary_stats`. -/
def round2 (q : ℚ) : ℚ := (pyRound (q * 100) : ℚ) / 100

/-- `np.mean` on the accumulated feature list (only taken when the list
is nonempty; the empty case is defaulted to 0 by the caller). -/
def meanQ (l : List ℚ) : ℚ := if l = [] then 0 else l.sum / l.length

/-- Python `min` over the accumulated release-date list, `none` when the
list is empty (the source guards with `if data['release_dates']`). -/
def listMin (l : List ℤ) : Option ℤ :=
  l.foldl (fun o d => some (match o with | none => d | some m => min m d)) none

/-- Python `max` over the accumulated release-date list. -/
def listMax (l : List ℤ) : Option ℤ :=
  l.foldl (fun o d => some (match o with | none => d | some m => max m d)) none

/-- The finalized per-artist dictionary built in the second phase of
`analyze_artists`.  `primary_genre` (mode of the genre counter with
first-encountered tie-break under dict iteration order) is intentionally
not modelled: its tie-break depends on insertion order and no claim
quantifies over it; the full genre counter is retained as
`genre_distribution`. -/
structure ArtistProfile where
  total_songs : ℕ
  hit_songs : ℕ
  good_songs : ℕ
  mid_songs : ℕ
  bust_songs : ℕ
  hit_rate : ℚ
  good_rate : ℚ
  mid_rate : ℚ
  bust_rate : ℚ
  estimated_total_revenue : ℚ
  avg_revenue_per_song : ℚ
  genre_distribution : String → ℕ
  explicit_ratio : ℚ
  first_release : Option ℤ
  last_release : Option ℤ
  career_span_years : ℚ
  avg_features : AudioKey → ℚ
  songs : List SongDetail

/-- The derived-metric computation of `analyze_artists` (rates, averages,
career span, rounding to 2 decimals) for one artist's accumulator. -/
def finalizeAcc (data : ArtistAcc) : ArtistProfile :=
  let total := data.total_songs
  let hit_rate : ℚ := if 0 < total then (data.hit_songs : ℚ) / total * 100 else 0
  let good_rate : ℚ := if 0 < total then (data.good_songs : ℚ) / total * 100 else 0
  let mid_rate : ℚ := if 0 < total then (data.mid_songs : ℚ) / total * 100 else 0
  let bust_rate : ℚ := if 0 < total then (data.bust_songs : ℚ) / total * 100 else 0
  let avg_revenue : ℚ := if 0 < total then data.total_revenue / total else 0
  let explicit_ratio : ℚ := if 0 < total then (data.explicit_count : ℚ) / total * 100 else 0
  let first_release := listMin data.release_dates
  let last_release := listMax data.release_dates
  let career_span_years : ℚ :=
    match first_release, last_release with
    | some f, some l => ((l - f : ℤ) : ℚ) / 365.25
    | _, _ => 0
  { total_songs := total
    hit_songs := data.hit_songs
    good_songs := data.good_songs
    mid_songs := data.mid_songs
    bust_songs := data.bust_songs
    hit_rate := round2 hit_rate
    good_rate := round2 good_rate
    mid_rate := round2 mid_rate
    bust_rate := round2 bust_rate
    estimated_total_revenue := round2 data.total_revenue
    avg_revenue_per_song := round2 avg_revenue
    genre_distribution := data.genres
    explicit_ratio := round2 explicit_ratio
    first_release := first_release
    last_release := last_release
    career_span_years := round2 career_span_years
    avg_features := fun k => round2 (meanQ (data.audio_features k))
    songs := data.songs }

/-- Insertion step of the sort backing the `np.median` model. -/
def insertSorted (x : ℚ) : List ℚ → List ℚ
  | [] => [x]
  | y :: ys => if x ≤ y then x :: y :: ys else y :: insertSorted x ys

/-- Ascending sort (insertion sort) used by the `np.median` model. -/
def sortQ (l : List ℚ) : List ℚ := l.foldr insertSorted []

/-- `np.median`: middle element of the sorted list, or the average of the
two middle elements for even length. -/
def npMedian (l : List ℚ) : ℚ :=
  let s := sortQ l
  let n := s.length
  if n = 0 then 0
  else if n % 2 = 1 then s.getD (n / 2) 0
  else (s.getD (n / 2 - 1) 0 + s.getD (n / 2) 0) / 2

/-- Output of `ArtistAnalyzer.get_summary_stats`. -/
structure SummaryStats where
  total_artists : ℕ
  total_songs : ℕ
  total_estimated_revenue : ℚ
  avg_songs_per_artist : ℚ
  avg_revenue_per_artist : ℚ
  avg_hit_rate : ℚ
  median_hit_rate : ℚ

/-- `ArtistAnalyzer.get_summary_stats`, over the list of finalized
profiles (the values of the `artist_data` dictionary). -/
def get_summary_stats (artist_data : List ArtistProfile) : SummaryStats :=
  let total_artists := artist_data.length
  let total_songs : ℕ := (artist_data.map (fun d => d.total_songs)).sum
  let total_revenue : ℚ := (artist_data.map (fun d => d.estimated_total_revenue)).sum
  let avg_songs_per_artist : ℚ :=
    if 0 < total_artists then (total_songs : ℚ) / total_artists else 0
  let avg_revenue_per_artist : ℚ :=
    if 0 < total_artists then total_revenue / total_artists else 0
  let hit_rates := artist_data.map (fun d => d.hit_rate)
  { total_artists := total_artists
    total_songs := total_songs
    total_estimated_revenue := round2 total_revenue
    avg_songs_per_artist := round2 avg_songs_per_artist
    avg_revenue_per_artist := round2 avg_revenue_per_artist
    avg_hit_rate := if hit_rates = [] then 0 else round2 (meanQ hit_rates)
    median_hit_rate := if hit_rates = [] then 0 else round2 (npMedian hit_rates) }

/-- Rendering of a stored popularity cell by `json.dump` in
`ArtistAnalyzer.save_results`: the call uses the default
`allow_nan=True`, under which a pandas missing value (`float('nan')`)
is serialized as the (invalid-JSON) literal token `NaN`, and a present
integer as its decimal numeral.  `src/fix_json.py` exists precisely to
rewrite such tokens to `null` after the fact. -/
def dumpPopularityToken : Option ℤ → String
  | none => "NaN"
  | some n => toString n

/-! ## Helper layer: a pure view of the accumulation fold -/

/-- The tier computed once per song, before the per-artist loop. -/
def songTier (row : Song) : Tier := classify_song row.popularity

/-- The revenue computed once per song (0 stands in for the value on rows
where the lookup would raise; `processSong_eq_pure` shows the stand-in is
never observed on rows the run survives). -/
def songRevenue (row : Song) : ℚ := (estimate_song_revenue row.popularity).getD 0

/-- One song absorbed into one artist accumulator, with tier and revenue
the once-per-song values. -/
def stepAcc (row : Song) (acc : ArtistAcc) : ArtistAcc :=
  updateArtistAcc acc row (songTier row) (songRevenue row)

/-- The per-artist loop of one row as a pure state transformer. -/
def processSongP (state : String → ArtistAcc) (row : Song) : String → ArtistAcc :=
  (parse_artists row.artists).foldl
    (fun st a => Function.update st a (stepAcc row (st a))) state

/-- Multiplicity of artist `a` among the parsed credits of `row`. -/
def cntA (a : String) (row : Song) : ℕ := (parse_artists row.artists).count a

/-- The pure-state result of the accumulation phase. -/
def analyzeP (l : List Song) : String → ArtistAcc :=
  l.foldl processSongP (fun _ => initAcc)

/-- Modelled from the spec (claim C2's reference formula): the
piecewise-linear benchmark interpolation stated as
`benchmark[lower] + (benchmark[upper] - benchmark[lower]) * (p - lower) / 10`
with `lower = floor(p/10)*10` and `upper = min(lower + 10, 100)`; at exact
benchmark points the linear term vanishes and the formula reproduces the
table value.  (`getD 0` only backs the total formula; on the claim's
domain `[0,100]` both lookups are present.) -/
def spec_interp_revenue (p : ℤ) : ℚ :=
  let lower := p / 10 * 10
  let upper := min (lower + 10) 100
  let bl := (revenue_benchmarks lower).getD 0
  let bu := (revenue_benchmarks upper).getD 0
  bl + (bu - bl) * ((p - lower : ℤ) : ℚ) / 10

/-- The four inclusive tier ranges of `tier_definitions`, in the
dictionary's insertion order. -/
def tier_ranges : List (Tier × ℤ × ℤ) :=
  [(Tier.hit, 80, 100), (Tier.good, 65, 79), (Tier.mid, 35, 64), (Tier.bust, 0, 34)]

/-- Modelled from the spec (claim C9's word "truthy"): Python truthiness
of a string value — every nonempty string is truthy. -/
def pyTruthy (s : String) : Bool := s ≠ ""

/-- A row whose `Explicit` cell holds the truthy string `"true"`, which is
not the exact string `"Yes"` the source compares against. -/
def c9row : Song where
  song := "X"
  artists := some "A"
  popularity := some 50
  genre := none
  explicitVal := "true"
  release_date := none
  audio := fun _ => none

/-- A row with a missing popularity cell, credited to one artist. -/
def c4row : Song where
  song := "Y"
  artists := some "A"
  popularity := none
  genre := none
  explicitVal := "No"
  release_date := none
  audio := fun _ => none

/-- Witness row: two artists, popularity 85, explicit, dated, with one
audio feature present. -/
def wrow1 : Song where
  song := "W1"
  artists := some "A, B"
  popularity := some 85
  genre := some "pop"
  explicitVal := "Yes"
  release_date := some 1000
  audio := fun k => if k = AudioKey.energy then some (1/2) else none

/-- Witness row: artist `A` only, popularity missing, undated. -/
def wrow2 : Song where
  song := "W2"
  artists := some "A"
  popularity := none
  genre := none
  explicitVal := "No"
  release_date := some 400
  audio := fun _ => none

theorem processSong_eq_pure (state : String → ArtistAcc) (row : Song) (r : ℚ)
    (h : estimate_song_revenue row.popularity = some r) :
    processSong state row = some (processSongP state row) := by
  unfold processSong processSongP stepAcc songTier songRevenue
  rw [h]
  simp

theorem analyze_eq_foldl (l : List Song) (σ : String → ArtistAcc)
    (h : analyze_accumulate l = some σ) :
    σ = l.foldl processSongP (fun _ => initAcc) := by
  suffices H : ∀ (l : List Song) (σ₀ σ : String → ArtistAcc),
      l.foldlM processSong σ₀ = some σ → σ = l.foldl processSongP σ₀ by
    exact H l _ σ h
  intro l
  induction l with
  | nil => intro σ₀ σ h; simpa [List.foldlM] using h.symm
  | cons s t ih =>
    intro σ₀ σ h
    simp only [List.foldlM] at h
    rcases hr : estimate_song_revenue s.popularity with _ | r
    · rw [show processSong σ₀ s = none by unfold processSong; rw [hr]] at h
      simp at h
    · rw [processSong_eq_pure σ₀ s r hr] at h
      simp only [Option.bind_eq_bind, Option.some_bind] at h
      exact ih _ σ h

theorem foldl_update_count (f : ArtistAcc → ArtistAcc) (l : List String)
    (σ : String → ArtistAcc) (a : String) :
    (l.foldl (fun st b => Function.update st b (f (st b))) σ) a = f^[l.count a] (σ a) := by
  induction l generalizing σ with
  | nil => rfl
  | cons b t ih =>
    simp only [List.foldl_cons, ih, List.count_cons]
    by_cases hab : b = a
    · subst hab
      simp [Function.update_same, Function.iterate_succ_apply]
    · have : a ≠ b := fun h => hab h.symm
      simp [Function.update_noteq this, hab]

theorem processSongP_apply (state : String → ArtistAcc) (row : Song) (a : String) :
    processSongP state row a = (stepAcc row)^[cntA a row] (state a) :=
  foldl_update_count (stepAcc row) (parse_artists row.artists) state a

theorem iterate_add_of_step {M : Type} [AddCommMonoid M] (f : ArtistAcc → ArtistAcc)
    (g : ArtistAcc → M) (d : M) (hg : ∀ x, g (f x) = g x + d) (n : ℕ) (x : ArtistAcc) :
    g (f^[n] x) = g x + n • d := by
  induction n with
  | zero => simp only [Function.iterate_zero, id_eq, zero_smul, add_zero]
  | succ m hm =>
    rw [Function.iterate_succ_apply', hg, hm, succ_nsmul, add_assoc]

/-- Closed form of any additively-accumulated projection of the analysis
state: its value for artist `a` is the initial value plus, over the songs
in input order, `cntA a s` copies of that song's contribution. -/
theorem analyze_field {M : Type} [AddCommMonoid M] (g : ArtistAcc → M) (δ : Song → M)
    (hg : ∀ x s, g (stepAcc s x) = g x + δ s) (l : List Song)
    (σ₀ : String → ArtistAcc) (a : String) :
    g ((l.foldl processSongP σ₀) a) = g (σ₀ a) + (l.map (fun s => cntA a s • δ s)).sum := by
  induction l generalizing σ₀ with
  | nil => simp
  | cons s t ih =>
    simp only [List.foldl_cons, List.map_cons, List.sum_cons]
    rw [ih, processSongP_apply,
      iterate_add_of_step (stepAcc s) g (δ s) (fun x => hg x s), add_assoc]

theorem analyzeP_total_songs (l : List Song) (a : String) :
    (analyzeP l a).total_songs = (l.map (fun s => cntA a s)).sum := by
  simpa [analyzeP, initAcc] using
    analyze_field (M := ℕ) (fun x => x.total_songs) (fun _ => 1)
      (fun x s => rfl) l (fun _ => initAcc) a

theorem analyzeP_hit_songs (l : List Song) (a : String) :
    (analyzeP l a).hit_songs =
      (l.map (fun s => cntA a s * (if songTier s = Tier.hit then 1 else 0))).sum := by
  simpa [analyzeP, initAcc] using
    analyze_field (M := ℕ) (fun x => x.hit_songs)
      (fun s => if songTier s = Tier.hit then 1 else 0)
      (fun x s => rfl) l (fun _ => initAcc) a

theorem analyzeP_good_songs (l : List Song) (a : String) :
    (analyzeP l a).good_songs =
      (l.map (fun s => cntA a s * (if songTier s = Tier.good then 1 else 0))).sum := by
  simpa [analyzeP, initAcc] using
    analyze_field (M := ℕ) (fun x => x.good_songs)
      (fun s => if songTier s = Tier.good then 1 else 0)
      (fun x s => rfl) l (fun _ => initAcc) a

theorem analyzeP_mid_songs (l : List Song) (a : String) :
    (analyzeP l a).mid_songs =
      (l.map (fun s => cntA a s * (if songTier s = Tier.mid then 1 else 0))).sum := by
  simpa [analyzeP, initAcc] using
    analyze_field (M := ℕ) (fun x => x.mid_songs)
      (fun s => if songTier s = Tier.mid then 1 else 0)
      (fun x s => rfl) l (fun _ => initAcc) a

theorem analyzeP_bust_songs (l : List Song) (a : String) :
    (analyzeP l a).bust_songs =
      (l.map (fun s => cntA a s * (if songTier s = Tier.bust then 1 else 0))).sum := by
  simpa [analyzeP, initAcc] using
    analyze_field (M := ℕ) (fun x => x.bust_songs)
      (fun s => if songTier s = Tier.bust then 1 else 0)
      (fun x s => rfl) l (fun _ => initAcc) a

theorem analyzeP_total_revenue (l : List Song) (a : String) :
    (analyzeP l a).total_revenue = (l.map (fun s => cntA a s • songRevenue s)).sum := by
  simpa [analyzeP, initAcc] using
    analyze_field (M := ℚ) (fun x => x.total_revenue) songRevenue
      (fun x s => rfl) l (fun _ => initAcc) a

theorem analyzeP_explicit_count (l : List Song) (a : String) :
    (analyzeP l a).explicit_count =
      (l.map (fun s => cntA a s * (if s.explicitVal = "Yes" then 1 else 0))).sum := by
  simpa [analyzeP, initAcc] using
    analyze_field (M := ℕ) (fun x => x.explicit_count)
      (fun s => if s.explicitVal = "Yes" then 1 else 0)
      (fun x s => rfl) l (fun _ => initAcc) a

theorem analyzeP_release_dates (l : List Song) (a : String) :
    ((analyzeP l a).release_dates : Multiset ℤ) =
      (l.map (fun s => cntA a s •
        (match s.release_date with
         | some d => ({d} : Multiset ℤ)
         | none => 0))).sum := by
  simpa [analyzeP, initAcc] using
    analyze_field (M := Multiset ℤ) (fun x => (x.release_dates : Multiset ℤ))
      (fun s => match s.release_date with
        | some d => ({d} : Multiset ℤ)
        | none => 0)
      (fun x s => by
        rcases hd : s.release_date with _ | d <;>
          simp [stepAcc, updateArtistAcc, hd, ← Multiset.coe_add])
      l (fun _ => initAcc) a

theorem analyzeP_audio (l : List Song) (a : String) (k : AudioKey) :
    ((analyzeP l a).audio_features k : Multiset ℚ) =
      (l.map (fun s => cntA a s •
        (match s.audio k with
         | some v => ({v} : Multiset ℚ)
         | none => 0))).sum := by
  simpa [analyzeP, initAcc] using
    analyze_field (M := Multiset ℚ) (fun x => (x.audio_features k : Multiset ℚ))
      (fun s => match s.audio k with
        | some v => ({v} : Multiset ℚ)
        | none => 0)
      (fun x s => by
        rcases hv : s.audio k with _ | v <;>
          simp [stepAcc, updateArtistAcc, hv, ← Multiset.coe_add])
      l (fun _ => initAcc) a

theorem listMin_perm {l l' : List ℤ} (h : l.Perm l') : listMin l = listMin l' :=
  h.foldl_eq' (fun x _ y _ z => by
    rcases z with _ | m <;> simp [min_comm, min_left_comm]) none

theorem listMax_perm {l l' : List ℤ} (h : l.Perm l') : listMax l = listMax l' :=
  h.foldl_eq' (fun x _ y _ z => by
    rcases z with _ | m <;> simp [max_comm, max_left_comm]) none

/-! ## Helper layer: the revenue estimator -/

theorem fdiv_ten (p : ℤ) : Int.fdiv p 10 = p / 10 :=
  Int.fdiv_eq_ediv p (by norm_num)

theorem bench_none {k : ℤ} (h : k < 0 ∨ 100 < k) : revenue_benchmarks k = none := by
  obtain ⟨c0, c1, c2, c3, c4, c5, c6, c7, c8, c9, cA⟩ :
      ¬ k = 0 ∧ ¬ k = 10 ∧ ¬ k = 20 ∧ ¬ k = 30 ∧ ¬ k = 40 ∧ ¬ k = 50 ∧
        ¬ k = 60 ∧ ¬ k = 70 ∧ ¬ k = 80 ∧ ¬ k = 90 ∧ ¬ k = 100 := by omega
  simp only [revenue_benchmarks, c0, c1, c2, c3, c4, c5, c6, c7, c8, c9, cA, if_false]

theorem bench_dom {k : ℤ} {v : ℚ} (h : revenue_benchmarks k = some v) :
    0 ≤ k ∧ k ≤ 100 := by
  by_contra hc
  rw [bench_none (by omega)] at h
  exact Option.noConfusion h

theorem bench_pair (d : ℤ) (h0 : 0 ≤ d) (h9 : d ≤ 9) :
    ∃ L U : ℚ, revenue_benchmarks (d * 10) = some L ∧
      revenue_benchmarks (d * 10 + 10) = some U ∧ 0 ≤ L ∧ L ≤ U := by
  interval_cases d <;> exact ⟨_, _, rfl, rfl, by norm_num, by norm_num⟩

theorem estimate_eval (p : ℤ) (h0 : 0 ≤ p) (h1 : p ≤ 99) {L U : ℚ}
    (hL : revenue_benchmarks (p / 10 * 10) = some L)
    (hU : revenue_benchmarks (p / 10 * 10 + 10) = some U) :
    estimate_song_revenue (some p) =
      some (L + (U - L) * ((p - p / 10 * 10 : ℤ) : ℚ) / 10) := by
  have hup : min (p / 10 * 10 + 10) 100 = p / 10 * 10 + 10 :=
    min_eq_left (by omega)
  simp only [estimate_song_revenue, fdiv_ten, hup]
  rw [if_neg (by omega), hL, hU]

theorem estimate_eval_high (p : ℤ) (h0 : 100 ≤ p) (h1 : p ≤ 109) :
    estimate_song_revenue (some p) = some 30000000 := by
  have hd : p / 10 = 10 := by omega
  simp only [estimate_song_revenue, fdiv_ten, hd]
  norm_num [revenue_benchmarks]

theorem estimate_none_of_neg (p : ℤ) (h : p < 0) :
    estimate_song_revenue (some p) = none := by
  have hlow : p / 10 * 10 ≤ -10 := by omega
  have hup : min (p / 10 * 10 + 10) 100 = p / 10 * 10 + 10 :=
    min_eq_left (by omega)
  simp only [estimate_song_revenue, fdiv_ten, hup]
  rw [if_neg (by omega), bench_none (Or.inl (by omega))]

theorem estimate_none_of_ge (p : ℤ) (h : 110 ≤ p) :
    estimate_song_revenue (some p) = none := by
  have hlow : 110 ≤ p / 10 * 10 := by omega
  have hup : min (p / 10 * 10 + 10) 100 = 100 :=
    min_eq_right (by omega)
  simp only [estimate_song_revenue, fdiv_ten, hup]
  rw [if_neg (by omega), bench_none (Or.inr (by omega))]

theorem estimate_isSome_of_le (p : ℤ) (h0 : 0 ≤ p) (h1 : p ≤ 109) :
    (estimate_song_revenue (some p)).isSome = true := by
  rcases le_or_lt p 99 with h | h
  · obtain ⟨L, U, hL, hU, _, _⟩ := bench_pair (p / 10) (by omega) (by omega)
    rw [estimate_eval p h0 h hL hU]
    rfl
  · rw [estimate_eval_high p (by omega) h1]
    rfl

theorem estimate_dom {p : ℤ} {r : ℚ} (h : estimate_song_revenue (some p) = some r) :
    0 ≤ p ∧ p ≤ 109 := by
  constructor
  · by_contra hneg
    rw [estimate_none_of_neg p (by omega)] at h
    exact Option.noConfusion h
  · by_contra hge
    rw [estimate_none_of_ge p (by omega)] at h
    exact Option.noConfusion h

theorem estimate_nonneg_of_some {po : Option ℤ} {r : ℚ}
    (h : estimate_song_revenue po = some r) : 0 ≤ r := by
  rcases po with _ | p
  · simp only [estimate_song_revenue] at h
    injection h with h
    rw [← h]
  · obtain ⟨h0, h109⟩ := estimate_dom h
    rcases le_or_lt p 99 with h99 | h99
    · obtain ⟨L, U, hL, hU, hL0, hLU⟩ := bench_pair (p / 10) (by omega) (by omega)
      rw [estimate_eval p h0 h99 hL hU] at h
      injection h with h
      rw [← h]
      have hx : (0 : ℚ) ≤ ((p - p / 10 * 10 : ℤ) : ℚ) := by
        exact_mod_cast (by omega : (0 : ℤ) ≤ p - p / 10 * 10)
      have hm := mul_nonneg (sub_nonneg.mpr hLU) hx
      have hd := div_nonneg hm (by norm_num : (0 : ℚ) ≤ 10)
      linarith
    · rw [estimate_eval_high p (by omega) h109] at h
      injection h with h
      rw [← h]
      norm_num

theorem revenue_mono_step (p : ℤ) (h0 : 0 ≤ p) (h1 : p ≤ 99) :
    (estimate_song_revenue (some p)).getD 0 ≤
      (estimate_song_revenue (some (p + 1))).getD 0 := by
  obtain ⟨L, U, hL, hU, hL0, hLU⟩ := bench_pair (p / 10) (by omega) (by omega)
  rw [estimate_eval p h0 h1 hL hU]
  rcases le_or_lt (p + 1) 99 with h2 | h2
  · by_cases hsame : (p + 1) / 10 = p / 10
    · rw [estimate_eval (p + 1) (by omega) h2
        (by rw [hsame]; exact hL) (by rw [hsame]; exact hU), hsame]
      simp only [Option.getD_some]
      have hd : ((p + 1 - p / 10 * 10 : ℤ) : ℚ) = ((p - p / 10 * 10 : ℤ) : ℚ) + 1 := by
        push_cast; ring
      rw [hd]
      have hdiff : (0 : ℚ) ≤ (U - L) / 10 :=
        div_nonneg (sub_nonneg.mpr hLU) (by norm_num)
      have hexp : (U - L) * (((p - p / 10 * 10 : ℤ) : ℚ) + 1) / 10 =
          (U - L) * ((p - p / 10 * 10 : ℤ) : ℚ) / 10 + (U - L) / 10 := by ring
      rw [hexp]
      linarith
    · obtain ⟨L2, U2, hL2, hU2, hL20, hLU2⟩ :=
        bench_pair ((p + 1) / 10) (by omega) (by omega)
      have hkey : (p + 1) / 10 * 10 = p / 10 * 10 + 10 := by omega
      have hL2U : L2 = U := by
        have := (hL2.symm.trans (by rw [hkey]; exact hU) : some L2 = some U)
        exact Option.some.inj this
      rw [estimate_eval (p + 1) (by omega) h2 hL2 hU2]
      simp only [Option.getD_some]
      have hx9 : ((p - p / 10 * 10 : ℤ) : ℚ) ≤ 9 := by
        exact_mod_cast (by omega : (p - p / 10 * 10 : ℤ) ≤ 9)
      have hy0 : ((p + 1 - (p + 1) / 10 * 10 : ℤ) : ℚ) = 0 := by
        exact_mod_cast (by omega : (p + 1 - (p + 1) / 10 * 10 : ℤ) = 0)
      rw [hy0, hL2U]
      have hdiff : (0 : ℚ) ≤ U - L := sub_nonneg.mpr hLU
      have hbound : (U - L) * ((p - p / 10 * 10 : ℤ) : ℚ) / 10 ≤ (U - L) := by
        rcases eq_or_lt_of_le hdiff with he | hlt
        · rw [← he]; norm_num
        · rw [div_le_iff₀ (by norm_num : (0:ℚ) < 10)]
          have := mul_le_mul_of_nonneg_left hx9 (le_of_lt hlt)
          linarith
      linarith
  · have hp : p = 99 := by omega
    subst hp
    rw [show (99 : ℤ) + 1 = 100 from by norm_num,
      estimate_eval_high 100 (by norm_num) (by norm_num)]
    simp only [Option.getD_some]
    have h90 : (99 : ℤ) / 10 * 10 = 90 := by norm_num
    rw [h90] at hL hU
    have hU30 : U = 30000000 := by
      have hb : revenue_benchmarks (90 + 10 : ℤ) = some 30000000 := by norm_num; rfl
      have : some U = some (30000000 : ℚ) := hU.symm.trans hb
      exact Option.some.inj this
    have hx : ((99 - 90 : ℤ) : ℚ) = 9 := by norm_num
    have h99 : ((99 : ℤ) - 99 / 10 * 10 : ℤ) = 9 := by norm_num
    rw [h99]
    have : (U - L) * ((9 : ℤ) : ℚ) / 10 ≤ U - L := by
      have hdiff : (0 : ℚ) ≤ U - L := sub_nonneg.mpr hLU
      rw [div_le_iff₀ (by norm_num : (0:ℚ) < 10)]
      push_cast
      nlinarith
    push_cast at this ⊢
    linarith [hLU, hU30 ▸ hLU]

theorem revenue_mono_le (p q : ℤ) (h0 : 0 ≤ p) (hpq : p ≤ q) (h1 : q ≤ 100) :
    (estimate_song_revenue (some p)).getD 0 ≤
      (estimate_song_revenue (some q)).getD 0 := by
  obtain ⟨k, hk⟩ : ∃ k : ℕ, q = p + k := ⟨(q - p).toNat, by omega⟩
  subst hk
  induction k with
  | zero => simp
  | succ n ih =>
    have hle : (estimate_song_revenue (some p)).getD 0 ≤
        (estimate_song_revenue (some (p + n))).getD 0 := ih (by omega) (by omega)
    have hstep := revenue_mono_step (p + n) (by omega) (by omega)
    have hcast : p + ((n : ℤ) + 1) = (p + n) + 1 := by ring
    calc (estimate_song_revenue (some p)).getD 0
        ≤ (estimate_song_revenue (some (p + n))).getD 0 := hle
      _ ≤ (estimate_song_revenue (some (p + n + 1))).getD 0 := hstep
      _ = (estimate_song_revenue (some (p + (n + 1 : ℕ)))).getD 0 := by
          push_cast
          rw [hcast]

theorem meanQ_perm {l l' : List ℚ} (h : l.Perm l') : meanQ l = meanQ l' := by
  have hlen := h.length_eq
  unfold meanQ
  split_ifs with h1 h2 h3
  · rfl
  · exact absurd (List.length_eq_zero.mp (by rw [← hlen, h1, List.length_nil])) h2
  · exact absurd (List.length_eq_zero.mp (by rw [hlen, h3, List.length_nil])) h1
  · rw [h.sum_eq, hlen]

/-! ## Claims about the revenue estimator -/

/-- C2: `estimate_song_revenue` equals the piecewise-linear reference
`spec_interp_revenue` over the fixed 11-point benchmark table on every
integer popularity in `[0,100]`; a missing popularity returns 0; the exact
benchmark hits at 0, 50 and 100 and the interpolated value at 45 are the
stated constants. -/
theorem C2_estimate_matches_reference :
    estimate_song_revenue none = some 0 ∧
    (∀ p : ℤ, 0 ≤ p → p ≤ 100 →
      estimate_song_revenue (some p) = some (spec_interp_revenue p)) ∧
    estimate_song_revenue (some 0) = some 500 ∧
    estimate_song_revenue (some 50) = some 150000 ∧
    estimate_song_revenue (some 100) = some 30000000 ∧
    estimate_song_revenue (some 45) = some 112500 := by
  refine ⟨rfl, ?_, ?_, ?_, rfl, ?_⟩
  · intro p h0 h1
    rcases le_or_lt p 99 with h99 | h99
    · obtain ⟨L, U, hL, hU, _, _⟩ := bench_pair (p / 10) (by omega) (by omega)
      rw [estimate_eval p h0 h99 hL hU]
      simp only [spec_interp_revenue, min_eq_left (by omega : p / 10 * 10 + 10 ≤ 100),
        hL, hU, Option.getD_some]
    · have hp : p = 100 := by omega
      subst hp
      rw [estimate_eval_high 100 (by norm_num) (by norm_num)]
      simp only [spec_interp_revenue]
      rw [show (100 : ℤ) / 10 * 10 = 100 from by norm_num,
        min_eq_right (by norm_num : (100 : ℤ) ≤ 100 + 10),
        show revenue_benchmarks (100 : ℤ) = some 30000000 from rfl]
      norm_num
  · norm_num [estimate_song_revenue, revenue_benchmarks, Int.fdiv]
  · norm_num [estimate_song_revenue, revenue_benchmarks, Int.fdiv]
  · norm_num [estimate_song_revenue, revenue_benchmarks, Int.fdiv]

theorem C2_estimate_matches_reference_witness :
    estimate_song_revenue (some 45) = some (spec_interp_revenue 45) ∧
    spec_interp_revenue 45 = 112500 := by
  constructor
  · exact C2_estimate_matches_reference.2.1 45 (by norm_num) (by norm_num)
  · simp only [spec_interp_revenue]
    rw [show (45 : ℤ) / 10 * 10 = 40 from by norm_num,
      min_eq_left (by norm_num : (40 : ℤ) + 10 ≤ 100),
      show revenue_benchmarks (40 : ℤ) = some 75000 from rfl,
      show revenue_benchmarks ((40 : ℤ) + 10) = some 150000 from rfl]
    norm_num

/-- C3: the four inclusive tier ranges of `tier_definitions` partition the
integer range `[0,100]` — every integer popularity lies in exactly one
range — and `classify_song` returns `good` at 79, `hit` at 80 and
`unknown` for a missing popularity. -/
theorem C3_tier_partition :
    (∀ p : ℤ, 0 ≤ p → p ≤ 100 →
      tier_ranges.countP (fun t => decide (t.2.1 ≤ p ∧ p ≤ t.2.2)) = 1) ∧
    classify_song (some 79) = Tier.good ∧
    classify_song (some 80) = Tier.hit ∧
    classify_song none = Tier.unknown := by
  refine ⟨?_, rfl, rfl, rfl⟩
  intro p h0 h1
  have hfin : ∀ q : Fin 101,
      tier_ranges.countP (fun t => decide (t.2.1 ≤ (q : ℤ) ∧ (q : ℤ) ≤ t.2.2)) = 1 := by
    decide
  have := hfin ⟨p.toNat, by omega⟩
  simpa [Int.toNat_of_nonneg h0] using this

theorem C3_tier_partition_witness :
    tier_ranges.countP (fun t => decide (t.2.1 ≤ (79 : ℤ) ∧ (79 : ℤ) ≤ t.2.2)) = 1 :=
  C3_tier_partition.1 79 (by norm_num) (by norm_num)

/-- C7: on the domain `[0,100]`, `estimate_song_revenue` is monotonically
non-decreasing in popularity, and every value it ever returns (missing
popularity included) is nonnegative. -/
theorem C7_estimate_monotone_nonneg :
    (∀ p q : ℤ, ∀ rp rq : ℚ, 0 ≤ p → p ≤ q → q ≤ 100 →
      estimate_song_revenue (some p) = some rp →
      estimate_song_revenue (some q) = some rq → rp ≤ rq) ∧
    (∀ (po : Option ℤ) (r : ℚ), estimate_song_revenue po = some r → 0 ≤ r) := by
  constructor
  · intro p q rp rq h0 hpq h1 hp hq
    have := revenue_mono_le p q h0 hpq h1
    rw [hp, hq] at this
    simpa using this
  · intro po r h
    exact estimate_nonneg_of_some h

theorem C7_estimate_monotone_nonneg_witness :
    estimate_song_revenue (some 45) = some 112500 ∧
    estimate_song_revenue (some 80) = some 2000000 ∧
    (0 : ℚ) ≤ 112500 ∧ (112500 : ℚ) ≤ 2000000 := by
  have h45 : estimate_song_revenue (some 45) = some 112500 := by
    norm_num [estimate_song_revenue, revenue_benchmarks, Int.fdiv]
  have h80 : estimate_song_revenue (some 80) = some 2000000 := by
    norm_num [estimate_song_revenue, revenue_benchmarks, Int.fdiv]
  exact ⟨h45, h80,
    C7_estimate_monotone_nonneg.2 (some 45) 112500 h45,
    C7_estimate_monotone_nonneg.1 45 80 112500 2000000
      (by norm_num) (by norm_num) (by norm_num) h45 h80⟩

/-- C10: for every present popularity in `[0,109]` both benchmark lookups
succeed and `estimate_song_revenue` returns a value, while every present
popularity below 0 or at/above 110 makes the lower-bound lookup miss the
11-point table and the call fail with a `KeyError` (modelled `none`). -/
theorem C10_estimate_domain :
    (∀ p : ℤ, 0 ≤ p → p ≤ 109 → (estimate_song_revenue (some p)).isSome = true) ∧
    (∀ p : ℤ, p < 0 ∨ 110 ≤ p → estimate_song_revenue (some p) = none) := by
  refine ⟨estimate_isSome_of_le, ?_⟩
  intro p h
  rcases h with h | h
  · exact estimate_none_of_neg p h
  · exact estimate_none_of_ge p h

theorem C10_estimate_domain_witness :
    (estimate_song_revenue (some 109)).isSome = true ∧
    estimate_song_revenue (some 110) = none ∧
    estimate_song_revenue (some (-1)) = none :=
  ⟨C10_estimate_domain.1 109 (by norm_num) (by norm_num),
   C10_estimate_domain.2 110 (Or.inr (by norm_num)),
   C10_estimate_domain.2 (-1) (Or.inl (by norm_num))⟩

/-! ## Claims about the aggregation pass -/

/-- C1: fan-out invariant.  For any row whose revenue estimate succeeds
with value `r`, processing the row increments each artist name's
`total_songs` by its multiplicity among the parsed credits (1 per credited
artist) and adds the identical once-per-song revenue `r` that many times
to its running total; names not credited keep their accumulator untouched,
and a row with zero parseable names changes nothing at all. -/
theorem C1_fanout_invariant (state : String → ArtistAcc) (row : Song) (r : ℚ)
    (h : estimate_song_revenue row.popularity = some r) :
    ∃ state', processSong state row = some state' ∧
      (∀ a : String,
        (state' a).total_songs = (state a).total_songs + cntA a row ∧
        (state' a).total_revenue = (state a).total_revenue + (cntA a row : ℚ) * r) ∧
      (∀ a : String, a ∉ parse_artists row.artists → state' a = state a) ∧
      (parse_artists row.artists = [] → state' = state) := by
  refine ⟨processSongP state row, processSong_eq_pure state row r h, ?_, ?_, ?_⟩
  · intro a
    have hr : songRevenue row = r := by simp [songRevenue, h]
    constructor
    · rw [processSongP_apply,
        iterate_add_of_step (stepAcc row) (fun x => x.total_songs) 1
          (fun x => rfl) (cntA a row) (state a)]
      simp
    · rw [processSongP_apply,
        iterate_add_of_step (stepAcc row) (fun x => x.total_revenue) (songRevenue row)
          (fun x => rfl) (cntA a row) (state a), hr]
      simp [nsmul_eq_mul]
  · intro a ha
    rw [processSongP_apply]
    have : cntA a row = 0 := List.count_eq_zero.mpr ha
    rw [this]
    rfl
  · intro hempty
    funext a
    rw [processSongP_apply]
    have : cntA a row = 0 := by simp [cntA, hempty]
    rw [this]
    rfl

theorem C1_fanout_invariant_witness :
    estimate_song_revenue wrow1.popularity = some 8500000 ∧
    cntA "A" wrow1 = 1 ∧ cntA "B" wrow1 = 1 ∧ cntA "C" wrow1 = 0 ∧
    ∃ stw, processSong (fun _ => initAcc) wrow1 = some stw ∧
      (stw "A").total_songs = 1 ∧
      (stw "A").total_revenue = 0 + (1 : ℚ) * 8500000 ∧
      (stw "B").total_revenue = 0 + (1 : ℚ) * 8500000 ∧
      stw "C" = initAcc := by
  have hrev : estimate_song_revenue wrow1.popularity = some 8500000 := by
    norm_num [wrow1, estimate_song_revenue, revenue_benchmarks, Int.fdiv]
  have hA : cntA "A" wrow1 = 1 := by decide
  have hB : cntA "B" wrow1 = 1 := by decide
  have hC : cntA "C" wrow1 = 0 := by decide
  obtain ⟨stw, hps, hcount, huntouched, -⟩ :=
    C1_fanout_invariant (fun _ => initAcc) wrow1 8500000 hrev
  refine ⟨hrev, hA, hB, hC, stw, hps, ?_, ?_, ?_, ?_⟩
  · rw [(hcount "A").1, hA]
    rfl
  · rw [(hcount "A").2, hA]
    norm_num [initAcc]
  · rw [(hcount "B").2, hB]
    norm_num [initAcc]
  · exact huntouched "C" (by decide)

/-- C8: a row with missing popularity is classified `unknown` and its
revenue estimate is 0; processing it leaves every credited artist's four
tier counters and running revenue total unchanged while still
incrementing `total_songs` once per credit. -/
theorem C8_missing_popularity (state : String → ArtistAcc) (row : Song)
    (h : row.popularity = none) :
    classify_song row.popularity = Tier.unknown ∧
    estimate_song_revenue row.popularity = some 0 ∧
    ∃ state', processSong state row = some state' ∧
      ∀ a : String,
        (state' a).hit_songs = (state a).hit_songs ∧
        (state' a).good_songs = (state a).good_songs ∧
        (state' a).mid_songs = (state a).mid_songs ∧
        (state' a).bust_songs = (state a).bust_songs ∧
        (state' a).total_revenue = (state a).total_revenue ∧
        (state' a).total_songs = (state a).total_songs + cntA a row := by
  have hcl : classify_song row.popularity = Tier.unknown := by rw [h]; rfl
  have hrev : estimate_song_revenue row.popularity = some 0 := by rw [h]; rfl
  refine ⟨hcl, hrev, processSongP state row,
    processSong_eq_pure state row 0 hrev, ?_⟩
  intro a
  have hr0 : songRevenue row = 0 := by simp [songRevenue, hrev]
  have htier : songTier row = Tier.unknown := hcl
  have hstep : ∀ (g : ArtistAcc → ℕ) (d : ℕ),
      (∀ x, g (stepAcc row x) = g x + d) → ∀ n x, g ((stepAcc row)^[n] x) = g x + n * d := by
    intro g d hg n x
    simpa [smul_eq_mul] using iterate_add_of_step (stepAcc row) g d hg n x
  refine ⟨?g1, ?g2, ?g3, ?g4, ?g5, ?g6⟩
  · rw [processSongP_apply, hstep (fun x => x.hit_songs)
      (if songTier row = Tier.hit then 1 else 0) (fun x => rfl)]
    rw [htier]
    simp
  · rw [processSongP_apply, hstep (fun x => x.good_songs)
      (if songTier row = Tier.good then 1 else 0) (fun x => rfl)]
    rw [htier]
    simp
  · rw [processSongP_apply, hstep (fun x => x.mid_songs)
      (if songTier row = Tier.mid then 1 else 0) (fun x => rfl)]
    rw [htier]
    simp
  · rw [processSongP_apply, hstep (fun x => x.bust_songs)
      (if songTier row = Tier.bust then 1 else 0) (fun x => rfl)]
    rw [htier]
    simp
  · rw [processSongP_apply,
      iterate_add_of_step (stepAcc row) (fun x => x.total_revenue) (songRevenue row)
        (fun x => rfl) (cntA a row) (state a), hr0]
    simp
  · rw [processSongP_apply,
      iterate_add_of_step (stepAcc row) (fun x => x.total_songs) 1
        (fun x => rfl) (cntA a row) (state a)]
    simp

theorem C8_missing_popularity_witness :
    wrow2.popularity = none ∧
    classify_song wrow2.popularity = Tier.unknown ∧
    estimate_song_revenue wrow2.popularity = some 0 ∧
    ∃ stw, processSong (fun _ => initAcc) wrow2 = some stw ∧
      (stw "A").hit_songs = 0 ∧
      (stw "A").total_revenue = 0 ∧
      (stw "A").total_songs = 0 + cntA "A" wrow2 := by
  obtain ⟨hcl, hrev, stw, hps, hall⟩ :=
    C8_missing_popularity (fun _ => initAcc) wrow2 rfl
  exact ⟨rfl, hcl, hrev, stw, hps,
    (hall "A").1, (hall "A").2.2.2.2.1, (hall "A").2.2.2.2.2⟩

/-- C9 counterexample: the claim says any truthy explicit flag increments
the explicit counter, but the source compares the cell against the exact
string `'Yes'`; for the truthy cell `"true"` of `c9row` the counter of the
single credited artist stays 0. -/
theorem C9_truthy_counterexample :
    pyTruthy c9row.explicitVal = true ∧
    ∃ stw, processSong (fun _ => initAcc) c9row = some stw ∧
      (stw "A").total_songs = 1 ∧ (stw "A").explicit_count = 0 := by
  refine ⟨rfl, _, rfl, by decide, by decide⟩

/-- C9 amended: processing a row increments each credited artist's
explicit counter (once per credit) exactly when the `Explicit` cell is
the string `"Yes"` — not for every truthy value — and `explicit_ratio`
is the 2-decimal-rounded percentage of the artist's `total_songs`
counted this way. -/
theorem C9_explicit_counter (state : String → ArtistAcc) (row : Song) (r : ℚ)
    (h : estimate_song_revenue row.popularity = some r) :
    ∃ state', processSong state row = some state' ∧
      (∀ a : String, (state' a).explicit_count = (state a).explicit_count +
        (if row.explicitVal = "Yes" then cntA a row else 0)) ∧
      ∀ acc : ArtistAcc, (finalizeAcc acc).explicit_ratio =
        round2 (if 0 < acc.total_songs
          then (acc.explicit_count : ℚ) / acc.total_songs * 100 else 0) := by
  refine ⟨processSongP state row, processSong_eq_pure state row r h, ?_, fun acc => rfl⟩
  intro a
  rw [processSongP_apply,
    iterate_add_of_step (stepAcc row) (fun x => x.explicit_count)
      (if row.explicitVal = "Yes" then 1 else 0) (fun x => rfl) (cntA a row) (state a)]
  by_cases hy : row.explicitVal = "Yes" <;> simp [hy]

theorem C9_explicit_counter_witness :
    estimate_song_revenue wrow1.popularity = some 8500000 ∧
    wrow1.explicitVal = "Yes" ∧
    ∃ stw, processSong (fun _ => initAcc) wrow1 = some stw ∧
      (stw "A").explicit_count = 0 + (if wrow1.explicitVal = "Yes"
        then cntA "A" wrow1 else 0) := by
  have hrev : estimate_song_revenue wrow1.popularity = some 8500000 := by
    norm_num [wrow1, estimate_song_revenue, revenue_benchmarks, Int.fdiv]
  obtain ⟨stw, hps, hcnt, -⟩ :=
    C9_explicit_counter (fun _ => initAcc) wrow1 8500000 hrev
  exact ⟨hrev, rfl, stw, hps, hcnt "A"⟩

/-- C4 (refuting the claim as the code stands): the serialized output of
the save step is not NaN-free.  For the one-row collection `[c4row]`
(missing popularity, one credited artist) the analysis succeeds and the
retained per-song detail record of artist `"A"` serializes its popularity
field as the literal token `NaN` — `json.dump` is called with its default
`allow_nan=True` and nothing substitutes `null` before serialization,
which is why `src/fix_json.py` post-processes the files. -/
theorem C4_nan_token_emitted :
    ∃ stw, analyze_accumulate [c4row] = some stw ∧
      ((stw "A").songs.map (fun d => dumpPopularityToken d.popularity)) = ["NaN"] :=
  ⟨_, rfl, rfl⟩

theorem pyRound_intCast (k : ℤ) : pyRound (k : ℚ) = k := by
  unfold pyRound
  rw [Int.floor_intCast]
  norm_num

theorem round2_cents (k : ℤ) : round2 ((k : ℚ) / 100) = (k : ℚ) / 100 := by
  unfold round2
  rw [div_mul_cancel₀ _ (by norm_num : (100 : ℚ) ≠ 0), pyRound_intCast]

/-- C6: `get_summary_stats` returns `total_songs` equal to the exact sum
of the profiles' `total_songs`, and — because every profile's
`estimated_total_revenue` is already rounded to 2 decimals, i.e. an exact
multiple of 1/100 — `total_estimated_revenue` equal to the exact sum of
the profiles' `estimated_total_revenue` (the final `round(·, 2)` is the
identity on such a sum); as a Lean function it cannot and does not mutate
its input. -/
theorem C6_summary_totals (profiles : List ArtistProfile)
    (h : ∀ p ∈ profiles, ∃ k : ℤ, p.estimated_total_revenue = (k : ℚ) / 100) :
    (get_summary_stats profiles).total_songs =
      (profiles.map (fun d => d.total_songs)).sum ∧
    (get_summary_stats profiles).total_estimated_revenue =
      (profiles.map (fun d => d.estimated_total_revenue)).sum := by
  refine ⟨rfl, ?_⟩
  have hsum : ∀ (L : List ArtistProfile),
      (∀ p ∈ L, ∃ k : ℤ, p.estimated_total_revenue = (k : ℚ) / 100) →
      ∃ K : ℤ, (L.map (fun d => d.estimated_total_revenue)).sum = (K : ℚ) / 100 := by
    intro L
    induction L with
    | nil => exact fun _ => ⟨0, by simp⟩
    | cons p t ih =>
      intro hL
      obtain ⟨k, hk⟩ := hL p (List.mem_cons_self p t)
      obtain ⟨K, hK⟩ := ih (fun q hq => hL q (List.mem_cons_of_mem p hq))
      refine ⟨k + K, ?_⟩
      simp only [List.map_cons, List.sum_cons, hk, hK]
      push_cast
      ring
  obtain ⟨K, hK⟩ := hsum profiles h
  show round2 ((profiles.map (fun d => d.estimated_total_revenue)).sum) = _
  rw [hK, round2_cents]

theorem C6_summary_totals_witness :
    (∀ p ∈ [finalizeAcc initAcc], ∃ k : ℤ, p.estimated_total_revenue = (k : ℚ) / 100) ∧
    (get_summary_stats [finalizeAcc initAcc]).total_songs =
      ([finalizeAcc initAcc].map (fun d => d.total_songs)).sum ∧
    (get_summary_stats [finalizeAcc initAcc]).total_estimated_revenue =
      ([finalizeAcc initAcc].map (fun d => d.estimated_total_revenue)).sum := by
  have hh : ∀ p ∈ [finalizeAcc initAcc],
      ∃ k : ℤ, p.estimated_total_revenue = (k : ℚ) / 100 := by
    intro p hp
    simp only [List.mem_singleton] at hp
    subst hp
    refine ⟨0, ?_⟩
    show round2 initAcc.total_revenue = (0 : ℚ) / 100
    norm_num [initAcc, round2, pyRound]
  exact ⟨hh, (C6_summary_totals _ hh).1, (C6_summary_totals _ hh).2⟩

/-- C5: order-independence.  Permuting the input song sequence before
aggregation leaves every artist's finalized profile values — the tier
counts, the four rates, `total_songs`, revenue total and average,
`explicit_ratio`, `career_span_years` and all averaged audio features —
unchanged (with the claim's stated caveat: `primary_genre`, tie-broken by
first-encountered-max under dict iteration order, is outside this
statement). -/
theorem C5_order_independence (l l' : List Song) (hperm : l.Perm l')
    (σ σ' : String → ArtistAcc)
    (h1 : analyze_accumulate l = some σ) (h2 : analyze_accumulate l' = some σ')
    (a : String) :
    (finalizeAcc (σ a)).total_songs = (finalizeAcc (σ' a)).total_songs ∧
    (finalizeAcc (σ a)).hit_songs = (finalizeAcc (σ' a)).hit_songs ∧
    (finalizeAcc (σ a)).good_songs = (finalizeAcc (σ' a)).good_songs ∧
    (finalizeAcc (σ a)).mid_songs = (finalizeAcc (σ' a)).mid_songs ∧
    (finalizeAcc (σ a)).bust_songs = (finalizeAcc (σ' a)).bust_songs ∧
    (finalizeAcc (σ a)).hit_rate = (finalizeAcc (σ' a)).hit_rate ∧
    (finalizeAcc (σ a)).good_rate = (finalizeAcc (σ' a)).good_rate ∧
    (finalizeAcc (σ a)).mid_rate = (finalizeAcc (σ' a)).mid_rate ∧
    (finalizeAcc (σ a)).bust_rate = (finalizeAcc (σ' a)).bust_rate ∧
    (finalizeAcc (σ a)).estimated_total_revenue =
      (finalizeAcc (σ' a)).estimated_total_revenue ∧
    (finalizeAcc (σ a)).avg_revenue_per_song =
      (finalizeAcc (σ' a)).avg_revenue_per_song ∧
    (finalizeAcc (σ a)).explicit_ratio = (finalizeAcc (σ' a)).explicit_ratio ∧
    (finalizeAcc (σ a)).career_span_years = (finalizeAcc (σ' a)).career_span_years ∧
    ∀ k : AudioKey,
      (finalizeAcc (σ a)).avg_features k = (finalizeAcc (σ' a)).avg_features k := by
  have hσ : σ = analyzeP l := analyze_eq_foldl l σ h1
  have hσ' : σ' = analyzeP l' := analyze_eq_foldl l' σ' h2
  subst hσ hσ'
  have hts : (analyzeP l a).total_songs = (analyzeP l' a).total_songs := by
    rw [analyzeP_total_songs, analyzeP_total_songs]
    exact (hperm.map _).sum_eq
  have hhit : (analyzeP l a).hit_songs = (analyzeP l' a).hit_songs := by
    rw [analyzeP_hit_songs, analyzeP_hit_songs]
    exact (hperm.map _).sum_eq
  have hgood : (analyzeP l a).good_songs = (analyzeP l' a).good_songs := by
    rw [analyzeP_good_songs, analyzeP_good_songs]
    exact (hperm.map _).sum_eq
  have hmid : (analyzeP l a).mid_songs = (analyzeP l' a).mid_songs := by
    rw [analyzeP_mid_songs, analyzeP_mid_songs]
    exact (hperm.map _).sum_eq
  have hbust : (analyzeP l a).bust_songs = (analyzeP l' a).bust_songs := by
    rw [analyzeP_bust_songs, analyzeP_bust_songs]
    exact (hperm.map _).sum_eq
  have hrev : (analyzeP l a).total_revenue = (analyzeP l' a).total_revenue := by
    rw [analyzeP_total_revenue, analyzeP_total_revenue]
    exact (hperm.map _).sum_eq
  have hexp : (analyzeP l a).explicit_count = (analyzeP l' a).explicit_count := by
    rw [analyzeP_explicit_count, analyzeP_explicit_count]
    exact (hperm.map _).sum_eq
  have hdates : (analyzeP l a).release_dates.Perm (analyzeP l' a).release_dates := by
    rw [← Multiset.coe_eq_coe, analyzeP_release_dates, analyzeP_release_dates]
    exact (hperm.map _).sum_eq
  have haud : ∀ k : AudioKey,
      ((analyzeP l a).audio_features k).Perm ((analyzeP l' a).audio_features k) := by
    intro k
    rw [← Multiset.coe_eq_coe, analyzeP_audio, analyzeP_audio]
    exact (hperm.map _).sum_eq
  refine ⟨hts, hhit, hgood, hmid, hbust, ?e1, ?e2, ?e3, ?e4, ?e5, ?e6, ?e7, ?e8, ?e9⟩
  · show round2 _ = round2 _
    rw [hts, hhit]
  · show round2 _ = round2 _
    rw [hts, hgood]
  · show round2 _ = round2 _
    rw [hts, hmid]
  · show round2 _ = round2 _
    rw [hts, hbust]
  · show round2 _ = round2 _
    rw [hrev]
  · show round2 _ = round2 _
    rw [hts, hrev]
  · show round2 _ = round2 _
    rw [hts, hexp]
  · show round2 _ = round2 _
    rw [listMin_perm hdates, listMax_perm hdates]
  · intro k
    show round2 (meanQ _) = round2 (meanQ _)
    rw [meanQ_perm (haud k)]

theorem C5_order_independence_witness :
    ∃ s1 s2 : String → ArtistAcc,
      analyze_accumulate [wrow1, wrow2] = some s1 ∧
      analyze_accumulate [wrow2, wrow1] = some s2 ∧
      ((finalizeAcc (s1 "A")).total_songs = (finalizeAcc (s2 "A")).total_songs ∧
       (finalizeAcc (s1 "A")).hit_songs = (finalizeAcc (s2 "A")).hit_songs ∧
       (finalizeAcc (s1 "A")).good_songs = (finalizeAcc (s2 "A")).good_songs ∧
       (finalizeAcc (s1 "A")).mid_songs = (finalizeAcc (s2 "A")).mid_songs ∧
       (finalizeAcc (s1 "A")).bust_songs = (finalizeAcc (s2 "A")).bust_songs ∧
       (finalizeAcc (s1 "A")).hit_rate = (finalizeAcc (s2 "A")).hit_rate ∧
       (finalizeAcc (s1 "A")).good_rate = (finalizeAcc (s2 "A")).good_rate ∧
       (finalizeAcc (s1 "A")).mid_rate = (finalizeAcc (s2 "A")).mid_rate ∧
       (finalizeAcc (s1 "A")).bust_rate = (finalizeAcc (s2 "A")).bust_rate ∧
       (finalizeAcc (s1 "A")).estimated_total_revenue =
         (finalizeAcc (s2 "A")).estimated_total_revenue ∧
       (finalizeAcc (s1 "A")).avg_revenue_per_song =
         (finalizeAcc (s2 "A")).avg_revenue_per_song ∧
       (finalizeAcc (s1 "A")).explicit_ratio = (finalizeAcc (s2 "A")).explicit_ratio ∧
       (finalizeAcc (s1 "A")).career_span_years =
         (finalizeAcc (s2 "A")).career_span_years ∧
       ∀ k : AudioKey,
         (finalizeAcc (s1 "A")).avg_features k = (finalizeAcc (s2 "A")).avg_features k) := by
  refine ⟨_, _, rfl, rfl, ?_⟩
  exact C5_order_independence [wrow1, wrow2] [wrow2, wrow1]
    (List.Perm.swap wrow2 wrow1 []) _ _ rfl rfl "A"
